import Mathlib

set_option maxRecDepth 8000

/-!
Shallow embedding of src/gcode-transform.py (function transform_gcode and its
helpers).  The Python code works over IEEE floats; every claim of the
specification is stated in exact arithmetic, so the embedding uses the
rationals.  Strings are modelled as lists of characters; the regular
expressions of the source are modelled by explicit scanners with the same
matching semantics (anchored match, leftmost search, greedy non-space runs).
-/

/-- Characters treated as whitespace by Python regular expression class
backslash-s and by str.strip, restricted to ASCII (the only characters
relevant for G-code input). -/
def isPySpace (c : Char) : Bool :=
  c == ' ' || c == '\t' || c == '\n' || c == '\r' || c == '\x0b' || c == '\x0c'

/-- Word characters for the regex word-boundary assertion used in the
patterns G90 backslash-b, G91 backslash-b and [Gg][01] backslash-b. -/
def isWordChar (c : Char) : Bool :=
  c.isAlphanum || c == '_'

/-- Models Python str.strip with no argument: remove leading and trailing
whitespace. -/
def stripChars (l : List Char) : List Char :=
  ((l.dropWhile isPySpace).reverse.dropWhile isPySpace).reverse

/-- Models line.rstrip applied with a newline argument: remove trailing
newline characters. -/
def dropTrailingNl (l : List Char) : List Char :=
  (l.reverse.dropWhile (fun c => c == '\n')).reverse

/-- Models original_line.split with a semicolon and maxsplit 1: the text
before the first semicolon, and the comment after it when one exists. -/
def splitSemi : List Char → List Char × Option (List Char)
  | [] => ([], none)
  | c :: cs =>
    if c == ';' then ([], some cs)
    else
      let p := splitSemi cs
      (c :: p.1, p.2)

/-- Models str.split on a single separator character (all occurrences),
as used by coord_pair splitting the center string on the letter x. -/
def splitOnChar (sep : Char) : List Char → List (List Char)
  | [] => [[]]
  | c :: cs =>
    if c == sep then [] :: splitOnChar sep cs
    else
      match splitOnChar sep cs with
      | [] => [[c]]
      | p :: ps => (c :: p) :: ps

/-- Numeric value of a list of decimal digit characters. -/
def digitsVal (l : List Char) : ℕ :=
  l.foldl (fun a c => 10 * a + (c.toNat - 48)) 0

/-- Exponent part of the Python float grammar: an optional sign followed by
at least one digit, consuming the whole remaining input. -/
def pyExp (mant : ℚ) (r : List Char) : Option ℚ :=
  let sr : Bool × List Char :=
    match r with
    | '+' :: t => (false, t)
    | '-' :: t => (true, t)
    | t => (false, t)
  let ed := sr.2.takeWhile Char.isDigit
  let r2 := sr.2.dropWhile Char.isDigit
  if ed.isEmpty || !r2.isEmpty then none
  else
    let e := digitsVal ed
    some (if sr.1 then mant / (10 : ℚ) ^ e else mant * (10 : ℚ) ^ e)

/-- Models the Python builtin float applied to a token string, in exact
arithmetic: optional surrounding whitespace, optional sign, a decimal
literal with optional fractional part, and an optional exponent.  The
special forms inf and nan and digit-group underscores, which never occur in
numeric G-code tokens, are not modelled and yield none. -/
def pyFloat (s0 : List Char) : Option ℚ :=
  let s1 := stripChars s0
  let sgn : Bool × List Char :=
    match s1 with
    | '+' :: r => (false, r)
    | '-' :: r => (true, r)
    | r => (false, r)
  let ip := sgn.2.takeWhile Char.isDigit
  let r1 := sgn.2.dropWhile Char.isDigit
  let fpr : List Char × List Char :=
    match r1 with
    | '.' :: r => (r.takeWhile Char.isDigit, r.dropWhile Char.isDigit)
    | r => ([], r)
  if ip.isEmpty && fpr.1.isEmpty then none
  else
    let mant : ℚ := (digitsVal ip : ℚ) + (digitsVal fpr.1 : ℚ) / (10 : ℚ) ^ fpr.1.length
    let signed : ℚ := if sgn.1 then -mant else mant
    match fpr.2 with
    | [] => some signed
    | 'e' :: r3 => pyExp signed r3
    | 'E' :: r3 => pyExp signed r3
    | _ => none

/-- Models coord_pair (source lines 14 to 20): split the center string on
the letter x and parse exactly two real numbers; any failure (wrong number
of parts or an unparsable part) is the error case, which in the source
raises ArgumentTypeError. -/
def coordPair (s : String) : Option (ℚ × ℚ) :=
  match splitOnChar 'x' s.toList with
  | [a, b] =>
    match pyFloat a, pyFloat b with
    | some x, some y => some (x, y)
    | _, _ => none
  | _ => none

/-- Word-boundary assertion after a recognized command token: satisfied at
end of input or before a non-word character. -/
def atBoundary : List Char → Bool
  | [] => true
  | c :: _ => !(isWordChar c)

/-- Models re.match of pattern G90 backslash-b against the cleaned line
(the match is anchored at the start and is case sensitive). -/
def matchG90 (l : List Char) : Bool :=
  match l with
  | c1 :: c2 :: c3 :: rest => c1 == 'G' && c2 == '9' && c3 == '0' && atBoundary rest
  | _ => false

/-- Models re.match of pattern G91 backslash-b against the cleaned line. -/
def matchG91 (l : List Char) : Bool :=
  match l with
  | c1 :: c2 :: c3 :: rest => c1 == 'G' && c2 == '9' && c3 == '1' && atBoundary rest
  | _ => false

/-- Models re.match of pattern [Gg][01] backslash-b against the cleaned
line: a rapid or linear motion command, case insensitive in the G. -/
def matchMotion (l : List Char) : Bool :=
  match l with
  | c1 :: c2 :: rest =>
    (c1 == 'G' || c1 == 'g') && (c2 == '0' || c2 == '1') && atBoundary rest
  | _ => false

/-- Models re.search for the pattern of a space, the axis letter, and a
greedy nonempty run of non-space characters (the capture group): leftmost
match wins, and the captured token is returned. -/
def searchAxis (axis : Char) : List Char → Option (List Char)
  | c1 :: c2 :: c3 :: rest =>
    if c1 == ' ' && c2 == axis && !(isPySpace c3) then
      some ((c3 :: rest).takeWhile (fun c => !(isPySpace c)))
    else searchAxis axis (c2 :: c3 :: rest)
  | _ => none

/-- Fuel-driven scanner for re.sub removing every occurrence of a space
followed by the letter X or Y and a nonempty run of non-space characters.
The fuel only serves to make the recursion structural; every call from
removeAxisTokens supplies enough fuel, since each step consumes at least
one character of the list. -/
def removeAxisAux : ℕ → List Char → List Char
  | 0, l => l
  | fuel + 1, l =>
    match l with
    | c1 :: c2 :: c3 :: rest =>
      if c1 == ' ' && (c2 == 'X' || c2 == 'Y') && !(isPySpace c3) then
        removeAxisAux fuel ((c3 :: rest).dropWhile (fun c => !(isPySpace c)))
      else c1 :: removeAxisAux fuel (c2 :: c3 :: rest)
    | l2 => l2

/-- Models re.sub of the axis-token pattern with the empty replacement
(source line 178): remove every whitespace-prefixed X or Y token. -/
def removeAxisTokens (l : List Char) : List Char :=
  removeAxisAux (l.length + 1) l

/-- A 3 by 3 homogeneous matrix over the rationals, the exact model of the
numpy arrays used by transform_gcode (entry names are row then column). -/
structure Mat3 where
  (a00 a01 a02 a10 a11 a12 a20 a21 a22 : ℚ)
deriving DecidableEq

/-- Matrix product, the model of the numpy matmul operator on the 3 by 3
homogeneous matrices of the source. -/
def Mat3.mul (A B : Mat3) : Mat3 :=
  ⟨A.a00 * B.a00 + A.a01 * B.a10 + A.a02 * B.a20,
   A.a00 * B.a01 + A.a01 * B.a11 + A.a02 * B.a21,
   A.a00 * B.a02 + A.a01 * B.a12 + A.a02 * B.a22,
   A.a10 * B.a00 + A.a11 * B.a10 + A.a12 * B.a20,
   A.a10 * B.a01 + A.a11 * B.a11 + A.a12 * B.a21,
   A.a10 * B.a02 + A.a11 * B.a12 + A.a12 * B.a22,
   A.a20 * B.a00 + A.a21 * B.a10 + A.a22 * B.a20,
   A.a20 * B.a01 + A.a21 * B.a11 + A.a22 * B.a21,
   A.a20 * B.a02 + A.a21 * B.a12 + A.a22 * B.a22⟩

/-- The identity matrix, the model of np.identity applied to 3. -/
def Mat3.identity : Mat3 := ⟨1, 0, 0, 0, 1, 0, 0, 0, 1⟩

/-- Homogeneous translation matrix, as written literally in the source for
rT (center translation) and mT (final shift). -/
def translateM (tx ty : ℚ) : Mat3 := ⟨1, 0, tx, 0, 1, ty, 0, 0, 1⟩

/-- The rotation matrix R of the source (lines 48 to 50): cosine on the
diagonal, sine in the upper right off-diagonal, negated sine in the lower
left off-diagonal, so a positive angle rotates clockwise. -/
def rotCW (c s : ℚ) : Mat3 := ⟨c, s, 0, -s, c, 0, 0, 0, 1⟩

/-- Determinant of a 3 by 3 matrix. -/
def Mat3.det (A : Mat3) : ℚ :=
  A.a00 * (A.a11 * A.a22 - A.a12 * A.a21)
    - A.a01 * (A.a10 * A.a22 - A.a12 * A.a20)
    + A.a02 * (A.a10 * A.a21 - A.a11 * A.a20)

/-- Exact matrix inverse by the adjugate formula; this is the mathematical
value computed by np.linalg.inv at line 52 of the source. -/
def Mat3.inverse (A : Mat3) : Mat3 :=
  let d := A.det
  ⟨(A.a11 * A.a22 - A.a12 * A.a21) / d,
   (A.a02 * A.a21 - A.a01 * A.a22) / d,
   (A.a01 * A.a12 - A.a02 * A.a11) / d,
   (A.a12 * A.a20 - A.a10 * A.a22) / d,
   (A.a00 * A.a22 - A.a02 * A.a20) / d,
   (A.a02 * A.a10 - A.a00 * A.a12) / d,
   (A.a10 * A.a21 - A.a11 * A.a20) / d,
   (A.a01 * A.a20 - A.a00 * A.a21) / d,
   (A.a00 * A.a11 - A.a01 * A.a10) / d⟩

/-- Apply a homogeneous matrix to a 2D point: append a homogeneous
coordinate of one, multiply, and keep the first two components (source
lines 140 to 147). -/
def Mat3.apply (A : Mat3) (p : ℚ × ℚ) : ℚ × ℚ :=
  (A.a00 * p.1 + A.a01 * p.2 + A.a02, A.a10 * p.1 + A.a11 * p.2 + A.a12)

/-- Models the matrix setup of transform_gcode (source lines 43 to 65).
The source computes cosA and sinA as cos and sin of the angle in radians;
those library calls are transcendental, so the builder receives their exact
values as explicit arguments (every claim instantiates them at an angle
whose cosine and sine are rational).  The combined matrix is
mT matmul rT matmul R matmul rT_inv, associated to the left exactly as
numpy associates the chained matmul operator. -/
def buildTransform (rotDeg cosA sinA cx cy sx sy : ℚ) : Mat3 :=
  let R := if rotDeg ≠ 0 then rotCW cosA sinA else Mat3.identity
  let rT := if rotDeg ≠ 0 then translateM cx cy else Mat3.identity
  let rTInv := if rotDeg ≠ 0 then (translateM cx cy).inverse else Mat3.identity
  let mT := translateM sx sy
  ((mT.mul rT).mul R).mul rTInv

/-- Modelled from the words of the specification for the refinement claim
about transform construction: Translate(shift) times Translate(center)
times R times Translate(minus center), where for a zero rotation the
rotational component and the center translations are the identity. -/
def specTransform (rotDeg cosA sinA cx cy sx sy : ℚ) : Mat3 :=
  if rotDeg ≠ 0 then
    (((translateM sx sy).mul (translateM cx cy)).mul (rotCW cosA sinA)).mul
      (translateM (-cx) (-cy))
  else
    (((translateM sx sy).mul Mat3.identity).mul Mat3.identity).mul Mat3.identity

/-- Decimal digit character for the remainder of a natural number mod 10. -/
def digitCh (d : ℕ) : Char := Char.ofNat (48 + d % 10)

/-- Decimal digit characters of a natural number, most significant first.
The fuel makes the recursion structural; the wrapper natChars always
supplies enough. -/
def natCharsAux : ℕ → ℕ → List Char
  | 0, _ => []
  | fuel + 1, n => if n < 10 then [digitCh n] else natCharsAux fuel (n / 10) ++ [digitCh n]

/-- Decimal representation of a natural number. -/
def natChars (n : ℕ) : List Char := natCharsAux (n + 1) n

/-- Exactly p decimal digit characters of a natural number below 10 to the
p, most significant first, including leading zeros. -/
def fracChars : ℕ → ℕ → List Char
  | 0, _ => []
  | p + 1, m => fracChars p (m / 10) ++ [digitCh m]

/-- Floor of a rational number as an integer, via flooring integer
division. -/
def ratFloor (q : ℚ) : ℤ := q.num.fdiv (q.den : ℤ)

/-- Round a rational to the nearest integer, ties to the even integer; this
is the rounding Python fixed-point formatting performs on the decimal value
(in exact arithmetic). -/
def roundHalfEven (q : ℚ) : ℤ :=
  let f := ratFloor q
  let r := q - (f : ℚ)
  if r < 1 / 2 then f
  else if (1 / 2 : ℚ) < r then f + 1
  else if f % 2 = 0 then f else f + 1

/-- Models format_coord (source lines 67 to 70), the Python format
specification of a fixed number of fractional digits equal to the
configured precision, in exact arithmetic: scale by 10 to the precision,
round half to even, and print sign, integer digits and, when the precision
is positive, a decimal point followed by exactly that many fractional
digits.  With a precision of zero Python prints no decimal point, and a
negative value that rounds to zero keeps its minus sign. -/
def formatCoord (prec : ℕ) (q : ℚ) : String :=
  let n := roundHalfEven (q * (10 : ℚ) ^ prec)
  let m := n.natAbs
  let ip := m / 10 ^ prec
  let fp := m % 10 ^ prec
  ⟨(if q < 0 then ['-'] else []) ++ natChars ip ++
    (if prec = 0 then [] else '.' :: fracChars prec fp)⟩

instance {ε α : Type} [DecidableEq ε] [DecidableEq α] : DecidableEq (Except ε α) :=
  fun a b =>
    match a, b with
    | .error e1, .error e2 =>
      if h : e1 = e2 then isTrue (by rw [h]) else isFalse (fun hh => h (by injection hh))
    | .ok x, .ok y =>
      if h : x = y then isTrue (by rw [h]) else isFalse (fun hh => h (by injection hh))
    | .error _, .ok _ => isFalse (fun hh => Except.noConfusion hh)
    | .ok _, .error _ => isFalse (fun hh => Except.noConfusion hh)

/-- The fatal failures of a run: an unparsable center string (coord_pair
raises ArgumentTypeError before any line is read) or an X or Y token whose
value the float builtin rejects (a ValueError that the source catches at
line 194 and turns into a non-zero process exit).  Either way the whole
stream is abandoned and no output line is printed. -/
inductive GErr where
  | invalidCenter : GErr
  | malformedToken : String → GErr
deriving DecidableEq

/-- The mutable per-run state of transform_gcode: the tracked position pos
(source line 73) and the coordinate mode rel (source line 74), which is
None before any G90 or G91 has been seen, false in absolute mode and true
in relative mode. -/
structure GState where
  pos : ℚ × ℚ
  rel : Option Bool
deriving DecidableEq

/-- The original line as the source keeps it: the raw input line with
trailing newlines removed (source line 89). -/
def originalOf (line : String) : List Char :=
  dropTrailingNl line.toList

/-- The cleaned line the classifier and the extractor work on: the text
before the first semicolon, stripped of surrounding whitespace (source
lines 90 to 91). -/
def cleanOf (line : String) : List Char :=
  stripChars (splitSemi (dropTrailingNl line.toList)).1

/-- The optional comment of a line: the text after the first semicolon
(source line 90). -/
def commentOf (line : String) : Option (List Char) :=
  (splitSemi (dropTrailingNl line.toList)).2

/-- Models the coordinate-parsing loop of the source (lines 113 to 121):
search the cleaned line for an X token and then a Y token, parsing each
with float; the first unparsable token aborts the whole run.  The X token
is parsed before the Y token exactly as the loop iterates. -/
def extractCoords (clean : List Char) : Except GErr (Option ℚ × Option ℚ) :=
  match searchAxis 'X' clean with
  | some tokX =>
    match pyFloat tokX with
    | none => .error (.malformedToken ⟨tokX⟩)
    | some vx =>
      match searchAxis 'Y' clean with
      | some tokY =>
        match pyFloat tokY with
        | none => .error (.malformedToken ⟨tokY⟩)
        | some vy => .ok (some vx, some vy)
      | none => .ok (some vx, none)
  | none =>
    match searchAxis 'Y' clean with
    | some tokY =>
      match pyFloat tokY with
      | none => .error (.malformedToken ⟨tokY⟩)
      | some vy => .ok (none, some vy)
    | none => .ok (none, none)

/-- Models the coordinate computation of a motion line (source lines 127
to 174): resolve the destination from the current position and the present
axis tokens according to the mode, transform both the current position and
the destination through the combined matrix, derive the output tokens
(absolute values in absolute mode, differences of transformed points in
relative mode, only for axes present in the input), and return the new
tracked position, which the source sets to the transformed destination. -/
def computeTokens (A : Mat3) (prec : ℕ) (pos : ℚ × ℚ) (relB : Bool)
    (dxo dyo : Option ℚ) : Option String × Option String × (ℚ × ℚ) :=
  let cur := pos
  let dest : ℚ × ℚ :=
    if relB then (cur.1 + dxo.getD 0, cur.2 + dyo.getD 0)
    else (dxo.getD cur.1, dyo.getD cur.2)
  let curT := A.apply cur
  let destT := A.apply dest
  if relB then
    (dxo.map (fun _ => "X" ++ formatCoord prec (destT.1 - curT.1)),
     dyo.map (fun _ => "Y" ++ formatCoord prec (destT.2 - curT.2)),
     destT)
  else
    (dxo.map (fun _ => "X" ++ formatCoord prec destT.1),
     dyo.map (fun _ => "Y" ++ formatCoord prec destT.2),
     destT)

/-- Models the body of the per-line loop of transform_gcode (source lines
88 to 189) for one raw input line: returns the updated state and the
emitted output line, or the fatal error of a malformed numeric token.  The
argument noT is the no-transform flag of source line 123 (no rotation and
no shift requested). -/
def processLine (A : Mat3) (noT : Bool) (prec : ℕ) (st : GState) (line : String) :
    Except GErr (GState × String) :=
  let original := originalOf line
  let clean := cleanOf line
  if clean.isEmpty then .ok (st, ⟨original⟩)
  else if matchG90 clean then .ok ({ st with rel := some false }, ⟨original⟩)
  else if matchG91 clean then .ok ({ st with rel := some true }, ⟨original⟩)
  else if !(matchMotion clean) then .ok (st, ⟨original⟩)
  else
    match extractCoords clean with
    | .error e => .error e
    | .ok (dxo, dyo) =>
      if !(dxo.isSome || dyo.isSome) || noT then .ok (st, ⟨original⟩)
      else
        let t := computeTokens A prec st.pos (st.rel == some true) dxo dyo
        let body := removeAxisTokens clean
        let body := match t.1 with
          | some tok => body ++ (' ' :: tok.toList)
          | none => body
        let body := match t.2.1 with
          | some tok => body ++ (' ' :: tok.toList)
          | none => body
        let body := match commentOf line with
          | some c => body ++ (' ' :: ';' :: c)
          | none => body
        .ok ({ pos := t.2.2, rel := st.rel }, ⟨stripChars body⟩)

/-- The per-line loop over the whole input: thread the state through every
line in order, collect the emitted lines, and abandon the rest of the
stream on the first fatal error (the source catches the ValueError outside
the loop and exits without printing anything). -/
def processLines (A : Mat3) (noT : Bool) (prec : ℕ) :
    GState → List String → Except GErr (GState × List String)
  | st, [] => .ok (st, [])
  | st, l :: ls =>
    match processLine A noT prec st l with
    | .error e => .error e
    | .ok (st1, out) =>
      match processLines A noT prec st1 ls with
      | .error e => .error e
      | .ok (st2, outs) => .ok (st2, out :: outs)

/-- Models transform_gcode (source lines 22 to 203) as a function from the
configuration and the raw input lines to the pair of the no-transform
warning flag (printed to the error channel at line 39, non-fatal) and
either the list of emitted lines with the final state, or the fatal error.
As in buildTransform, cosA and sinA are the exact values of cos and sin of
the rotation angle in radians.  The fixed four-line header block the
script prepends belongs to the command-line layer the specification
excludes, and no claim mentions it, so it is not part of the modelled
output; an unparsable center string aborts before it is built in any
case. -/
def transformGcode (rotDeg cosA sinA sx sy : ℚ) (centerStr : String) (prec : ℕ)
    (lines : List String) : Bool × Except GErr (GState × List String) :=
  match coordPair centerStr with
  | none => (false, .error .invalidCenter)
  | some c =>
    let noT : Bool := decide (rotDeg = 0 ∧ sx = 0 ∧ sy = 0)
    let A := buildTransform rotDeg cosA sinA c.1 c.2 sx sy
    (noT, processLines A noT prec ⟨(0, 0), none⟩ lines)

theorem Mat3.mul_identity (A : Mat3) : A.mul Mat3.identity = A := by
  cases A
  simp [Mat3.mul, Mat3.identity]

theorem translate_inverse (cx cy : ℚ) :
    (translateM cx cy).inverse = translateM (-cx) (-cy) := by
  simp [Mat3.inverse, Mat3.det, translateM]

theorem buildTransform_zero (cosA sinA cx cy sx sy : ℚ) :
    buildTransform 0 cosA sinA cx cy sx sy = translateM sx sy := by
  simp [buildTransform, Mat3.mul_identity]

theorem apply_translate (tx ty : ℚ) (p : ℚ × ℚ) :
    (translateM tx ty).apply p = (p.1 + tx, p.2 + ty) := by
  simp [Mat3.apply, translateM]

theorem motion_shape (l : List Char) (h : matchMotion l = true) :
    matchG90 l = false ∧ matchG91 l = false ∧ l.isEmpty = false := by
  cases l with
  | nil => simp [matchMotion] at h
  | cons c1 t =>
    cases t with
    | nil => simp [matchMotion] at h
    | cons c2 rest =>
      simp only [matchMotion, Bool.and_eq_true, Bool.or_eq_true, beq_iff_eq] at h
      obtain ⟨⟨h1, h2⟩, h3⟩ := h
      clear h3 h1
      cases rest with
      | nil => exact ⟨rfl, rfl, rfl⟩
      | cons c3 rest2 =>
        rcases h2 with h2 | h2 <;> subst h2 <;>
          exact ⟨by simp [matchG90, show (('0' : Char) == '9') = false from rfl,
                    show (('1' : Char) == '9') = false from rfl],
                 by simp [matchG91, show (('0' : Char) == '9') = false from rfl,
                    show (('1' : Char) == '9') = false from rfl],
                 rfl⟩

theorem digitCh_not_dot (d : ℕ) : (digitCh d == '.') = false := by
  unfold digitCh
  have h : d % 10 < 10 := Nat.mod_lt _ (by norm_num)
  generalize hk : d % 10 = k
  rw [hk] at h
  interval_cases k <;> rfl

theorem length_fracChars (p m : ℕ) : (fracChars p m).length = p := by
  induction p generalizing m with
  | zero => rfl
  | succ p ih => simp [fracChars, ih]

theorem fracChars_not_dot (p : ℕ) : ∀ m : ℕ, ∀ c ∈ fracChars p m, (c == '.') = false := by
  induction p with
  | zero => intro m c hc; simp [fracChars] at hc
  | succ p ih =>
    intro m c hc
    simp only [fracChars, List.mem_append, List.mem_singleton] at hc
    rcases hc with hc | hc
    · exact ih _ c hc
    · rw [hc]; exact digitCh_not_dot m

theorem natCharsAux_not_dot (fuel : ℕ) : ∀ n : ℕ, ∀ c ∈ natCharsAux fuel n, (c == '.') = false := by
  induction fuel with
  | zero => intro n c hc; simp [natCharsAux] at hc
  | succ fuel ih =>
    intro n c hc
    by_cases h : n < 10
    · simp only [natCharsAux, if_pos h, List.mem_singleton] at hc
      rw [hc]; exact digitCh_not_dot n
    · simp only [natCharsAux, if_neg h, List.mem_append, List.mem_singleton] at hc
      rcases hc with hc | hc
      · exact ih _ c hc
      · rw [hc]; exact digitCh_not_dot n

theorem count_dot_eq_zero (l : List Char) (h : ∀ c ∈ l, (c == '.') = false) :
    l.count '.' = 0 := by
  rw [List.count_eq_zero]
  intro hmem
  have hh := h _ hmem
  simp at hh

theorem takeWhile_before_stop (p : Char → Bool) (l : List Char) (x : Char) (r : List Char)
    (hl : ∀ c ∈ l, p c = true) (hx : p x = false) :
    (l ++ x :: r).takeWhile p = l := by
  induction l with
  | nil => simp [List.takeWhile_cons, hx]
  | cons a t ih =>
    have ha : p a = true := hl a (by simp)
    simp [List.takeWhile_cons, ha, ih (fun c hc => hl c (by simp [hc]))]

/-- C1.  The claim says the tracked absolute position after line n equals
the transform applied to the true pre-transform destination computed from
the raw input, independent of lines that specify only one axis.  The code
violates this: it stores the transformed destination in pos (source lines
154 and 167) while the comment at source line 127 and the destination
computation at lines 128 to 135 treat pos as the TRUE pre-transform
position, so an absolute line that omits an axis re-transforms an already
transformed coordinate.  With a 90 degree rotation about the origin and
input G90, G1 X10 Y0, G1 X20, the true raw destination after the third
line is (20, 0), whose transform is (0, -20); the code instead tracks
(-10, -20) and emits X-10.000. -/
theorem c1_cursor_tracks_transformed_destination :
    processLines (buildTransform 90 0 1 0 0 0 0) false 3 ⟨(0, 0), none⟩
        ["G90", "G1 X10 Y0", "G1 X20"] =
      .ok (⟨(-10, -20), some false⟩, ["G90", "G1 X0.000 Y-10.000", "G1 X-10.000"]) ∧
    (buildTransform 90 0 1 0 0 0 0).apply (20, 0) = (0, -20) ∧
    ((-10 : ℚ), (-20 : ℚ)) ≠ ((0 : ℚ), (-20 : ℚ)) := by
  with_unfolding_all decide

/-- C2.  Rotation sign convention and end-to-end scenario: with a rotation
of 90 degrees (whose cosine is 0 and sine is 1 exactly), center (0, 0), no
shift and precision 3, the input lines G90, G1 X10 Y0, G1 X10 Y10 produce
exactly G90, G1 X0.000 Y-10.000, G1 X10.000 Y-10.000 (positive angle is
clockwise), and the point (10, 0) transforms to (0, -10). -/
theorem c2_rotation_end_to_end :
    transformGcode 90 0 1 0 0 "0x0" 3 ["G90", "G1 X10 Y0", "G1 X10 Y10"] =
      (false, .ok (⟨(10, -10), some false⟩,
        ["G90", "G1 X0.000 Y-10.000", "G1 X10.000 Y-10.000"])) ∧
    (buildTransform 90 0 1 0 0 0 0).apply (10, 0) = (0, -10) := by
  with_unfolding_all decide

/-- C3.  Transform construction: for every choice of parameters the builder
of the source (lines 43 to 65) yields exactly the composition
Translate(shift) times Translate(center) times R times Translate(minus
center) written in the specification, where R carries the cosine on the
diagonal, the sine upper right and the negated sine lower left, and where
for a zero rotation the rotational component and the center translations
are the identity.  The left side models the source including the matrix
inverse call; the right side is the composition spelled from the words of
the specification. -/
theorem c3_transform_construction (rotDeg cosA sinA cx cy sx sy : ℚ) :
    buildTransform rotDeg cosA sinA cx cy sx sy =
      specTransform rotDeg cosA sinA cx cy sx sy := by
  by_cases h : rotDeg = 0 <;>
    simp [buildTransform, specTransform, h, translate_inverse]

/-- C10.  Unconditional up-front center validation: whenever the center
string does not parse as exactly two real numbers separated by a single
letter x, the whole run fails with the invalid-center error and produces no
output line and no warning, for every rotation (including zero, where the
center has no numeric effect) and every input.  In the source coord_pair
runs at line 28, before any input line is read, and the resulting
ArgumentTypeError escapes transform_gcode before anything is printed. -/
theorem c10_center_validated_upfront (rotDeg cosA sinA sx sy : ℚ) (prec : ℕ)
    (centerStr : String) (lines : List String)
    (hc : coordPair centerStr = none) :
    transformGcode rotDeg cosA sinA sx sy centerStr prec lines =
      (false, .error .invalidCenter) := by
  simp [transformGcode, hc]

theorem c10_center_validated_upfront_witness :
    coordPair "125y100" = none ∧
    transformGcode 0 1 0 0 0 "125y100" 3 ["G90", "G1 X1 Y2"] =
      (false, .error .invalidCenter) :=
  ⟨rfl, c10_center_validated_upfront 0 1 0 0 0 3 "125y100" ["G90", "G1 X1 Y2"] rfl⟩

/-- C4.  Relative-mode delta invariance under pure translation: for every
translation-only transform (zero rotation, arbitrary shifts), every cursor
state reached by earlier lines, and every combination of present input
deltas, the tokens the engine emits for a relative motion line are exactly
the formatted untransformed input deltas (computeTokens, modelling source
lines 127 to 174, is the sole producer of emitted coordinate tokens).  The
new tracked position is the translated destination. -/
theorem c4_relative_translation_delta (cosA sinA cx cy sx sy : ℚ) (prec : ℕ)
    (pos : ℚ × ℚ) (dxo dyo : Option ℚ) :
    computeTokens (buildTransform 0 cosA sinA cx cy sx sy) prec pos true dxo dyo =
      (dxo.map (fun d => "X" ++ formatCoord prec d),
       dyo.map (fun d => "Y" ++ formatCoord prec d),
       (pos.1 + dxo.getD 0 + sx, pos.2 + dyo.getD 0 + sy)) := by
  rw [buildTransform_zero]
  cases dxo <;> cases dyo <;> simp [computeTokens, apply_translate]

/-- C6.  Pass-through fidelity: every line that the classifier recognizes
as neither a mode switch nor a motion command (blank lines and pure
comment lines included) is emitted byte-identical to the input, with only
trailing newlines removed, and leaves both the tracked position and the
coordinate mode unchanged, for every transform, precision and prior
state. -/
theorem c6_passthrough_fidelity (A : Mat3) (noT : Bool) (prec : ℕ) (st : GState)
    (line : String)
    (h90 : matchG90 (cleanOf line) = false)
    (h91 : matchG91 (cleanOf line) = false)
    (hmo : matchMotion (cleanOf line) = false) :
    processLine A noT prec st line = .ok (st, ⟨originalOf line⟩) := by
  unfold processLine
  by_cases he : (cleanOf line).isEmpty = true <;> simp [he, h90, h91, hmo]

theorem c6_passthrough_fidelity_witness :
    matchG90 (cleanOf "M104 S200 ; heat") = false ∧
    matchG91 (cleanOf "M104 S200 ; heat") = false ∧
    matchMotion (cleanOf "M104 S200 ; heat") = false ∧
    processLine Mat3.identity false 3 ⟨(0, 0), none⟩ "M104 S200 ; heat" =
      .ok (⟨(0, 0), none⟩, ⟨originalOf "M104 S200 ; heat"⟩) :=
  ⟨rfl, rfl, rfl,
   c6_passthrough_fidelity Mat3.identity false 3 ⟨(0, 0), none⟩ "M104 S200 ; heat"
     rfl rfl rfl⟩

/-- C7.  A malformed numeric token is fatal for the whole run: whenever a
line is recognized as a motion command and its coordinate extraction fails
(an X or Y token whose value the float builtin rejects), processing of the
entire remaining stream is abandoned with that error, whatever lines
follow, whatever the state, and even when no transform was requested (the
source parses tokens at lines 116 to 121 before the no-transform check and
the ValueError handler at lines 194 to 196 exits the process); the error
result carries no output lines, so no per-line recovery occurs. -/
theorem c7_malformed_token_fatal (A : Mat3) (noT : Bool) (prec : ℕ) (st : GState)
    (line : String) (rest : List String) (e : GErr)
    (hm : matchMotion (cleanOf line) = true)
    (he : extractCoords (cleanOf line) = .error e) :
    processLines A noT prec st (line :: rest) = .error e := by
  obtain ⟨h90, h91, hne⟩ := motion_shape _ hm
  have hl : processLine A noT prec st line = .error e := by
    unfold processLine
    simp [hne, h90, h91, hm, he]
  simp [processLines, hl]

theorem c7_malformed_token_fatal_witness :
    matchMotion (cleanOf "G1 X1..2 Y5") = true ∧
    extractCoords (cleanOf "G1 X1..2 Y5") = .error (.malformedToken "1..2") ∧
    processLines Mat3.identity false 3 ⟨(0, 0), none⟩ ["G1 X1..2 Y5", "G1 X7"] =
      .error (.malformedToken "1..2") :=
  ⟨rfl, rfl,
   c7_malformed_token_fatal Mat3.identity false 3 ⟨(0, 0), none⟩ "G1 X1..2 Y5" ["G1 X7"]
     (.malformedToken "1..2") rfl rfl⟩

/-- C5.  No-op case: with zero rotation and zero shifts (center still
parsed), the run surfaces the no-transform warning (first conjunct), and
the warning is non-fatal: the result is exactly the normal per-line
processing of every input line (second conjunct).  The per-line logic
really runs rather than copying bytes: mode switches are still tracked
(third conjunct, the final state records absolute mode) and a malformed
numeric token on a motion line is still fatal even though no transform was
requested (fourth conjunct). -/
theorem c5_noop_warning (cosA sinA : ℚ) (prec : ℕ) (centerStr : String)
    (lines : List String) (cx cy : ℚ)
    (hc : coordPair centerStr = some (cx, cy)) :
    (transformGcode 0 cosA sinA 0 0 centerStr prec lines).1 = true ∧
    (transformGcode 0 cosA sinA 0 0 centerStr prec lines).2 =
      processLines (buildTransform 0 cosA sinA cx cy 0 0) true prec ⟨(0, 0), none⟩ lines ∧
    (transformGcode 0 cosA sinA 0 0 centerStr prec ["; setup", "G90", "G1 X1 Y2"]).2 =
      .ok (⟨(0, 0), some false⟩, ["; setup", "G90", "G1 X1 Y2"]) ∧
    (transformGcode 0 cosA sinA 0 0 centerStr prec ["G1 X1..2"]).2 =
      .error (.malformedToken "1..2") := by
  have hnoT : (decide ((0 : ℚ) = 0 ∧ (0 : ℚ) = 0 ∧ (0 : ℚ) = 0)) = true := by
    with_unfolding_all decide
  refine ⟨?_, ?_, ?_, ?_⟩ <;> simp only [transformGcode, hc, hnoT]
  · rfl
  · rfl
  · rfl
  · rfl

theorem c5_noop_warning_witness :
    (transformGcode 0 1 0 0 0 "125x100" 3 ["M3"]).1 = true ∧
    (transformGcode 0 1 0 0 0 "125x100" 3 ["M3"]).2 =
      processLines (buildTransform 0 1 0 125 100 0 0) true 3 ⟨(0, 0), none⟩ ["M3"] ∧
    (transformGcode 0 1 0 0 0 "125x100" 3 ["; setup", "G90", "G1 X1 Y2"]).2 =
      .ok (⟨(0, 0), some false⟩, ["; setup", "G90", "G1 X1 Y2"]) ∧
    (transformGcode 0 1 0 0 0 "125x100" 3 ["G1 X1..2"]).2 =
      .error (.malformedToken "1..2") :=
  c5_noop_warning 1 0 3 "125x100" ["M3"] 125 100 (by with_unfolding_all decide)

/-- C8 counterexample.  The claim says a lowercase g91 line is classified
as a mode switch setting RELATIVE mode; in the code the mode-switch
regexes are case sensitive, so the line g91 is passed through as
unrecognized content and the mode stays None, which is not relative
mode. -/
theorem c8_lowercase_g91_passthrough :
    processLine Mat3.identity false 3 ⟨(0, 0), none⟩ "g91" =
      .ok (⟨(0, 0), none⟩, "g91") ∧ (none : Option Bool) ≠ some true := by
  with_unfolding_all decide

/-- C8 as amended.  Mode-switch recognition is case sensitive: lowercase
g90 and g91 are passed through unchanged with the state untouched, while
uppercase G90 and G91 set absolute and relative mode and are emitted
unchanged; motion tokens, by contrast, are recognized case
insensitively. -/
theorem c8_case_sensitive_modeswitch (A : Mat3) (noT : Bool) (prec : ℕ) (st : GState) :
    processLine A noT prec st "g90" = .ok (st, "g90") ∧
    processLine A noT prec st "g91" = .ok (st, "g91") ∧
    processLine A noT prec st "G90" = .ok ({ st with rel := some false }, "G90") ∧
    processLine A noT prec st "G91" = .ok ({ st with rel := some true }, "G91") ∧
    matchMotion "g1 X1".toList = true ∧ matchMotion "G1 X1".toList = true :=
  ⟨rfl, rfl, rfl, rfl, rfl, rfl⟩

/-- C9 counterexample.  The claim says every emitted coordinate token
contains a decimal point for every non-negative precision including zero;
with precision zero the engine emits G1 X0 Y-10, which contains no decimal
point at all (Python fixed-point formatting with zero fractional digits
prints none). -/
theorem c9_precision_zero_no_decimal_point :
    transformGcode 90 0 1 0 0 "0x0" 0 ["G90", "G1 X10 Y0"] =
      (false, .ok (⟨(0, -10), some false⟩, ["G90", "G1 X0 Y-10"])) ∧
    "G1 X0 Y-10".toList.count '.' = 0 := by
  with_unfolding_all decide

/-- C9 as amended.  Coordinate tokens are formatted with exactly the
configured number of fractional digits, independent of the magnitude of
the value: for a positive precision the token contains exactly one decimal
point and exactly precision digits after it; for precision zero it
contains no decimal point (and hence no fractional digits).  formatCoord
is the formatter applied to every emitted X and Y value. -/
theorem c9_fixed_fraction_digits (prec : ℕ) (q : ℚ) :
    (formatCoord prec q).toList.count '.' = (if prec = 0 then 0 else 1) ∧
    (0 < prec →
      ((formatCoord prec q).toList.reverse.takeWhile (fun c => !(c == '.'))).length =
        prec) := by
  constructor
  · show (formatCoord prec q).data.count '.' = _
    unfold formatCoord
    simp only [List.count_append]
    have h1 : (if q < 0 then ['-'] else []).count '.' = 0 := by split <;> rfl
    have h2 : ∀ n : ℕ, (natChars n).count '.' = 0 := fun n =>
      count_dot_eq_zero _ (fun c hc => natCharsAux_not_dot _ _ c hc)
    have h3 : ∀ p m : ℕ, (fracChars p m).count '.' = 0 := fun p m =>
      count_dot_eq_zero _ (fracChars_not_dot p m)
    by_cases hp : prec = 0
    · simp [hp, h1, h2]
    · simp [hp, h1, h2, h3, List.count_cons]
  · intro hp
    have hprec : prec ≠ 0 := Nat.pos_iff_ne_zero.mp hp
    show ((formatCoord prec q).data.reverse.takeWhile _).length = prec
    unfold formatCoord
    simp only [if_neg hprec, List.reverse_append, List.reverse_cons, List.append_assoc,
      List.singleton_append, List.cons_append]
    rw [takeWhile_before_stop]
    · simp [length_fracChars]
    · intro c hc
      rw [List.mem_reverse] at hc
      simp [fracChars_not_dot prec _ c hc]
    · rfl

theorem c9_fixed_fraction_digits_witness :
    (formatCoord 3 (10 : ℚ)).toList.count '.' = (if (3 : ℕ) = 0 then 0 else 1) ∧
    ((formatCoord 3 (10 : ℚ)).toList.reverse.takeWhile (fun c => !(c == '.'))).length = 3 :=
  ⟨(c9_fixed_fraction_digits 3 10).1, (c9_fixed_fraction_digits 3 10).2 (by norm_num)⟩
